import Mathlib

/-!
Shallow embedding of `picoc.h`, the header of the picoc C interpreter:
configuration constants, the lexical token enumeration, the type and value
model, hash tables, stack frames, and the module-level interpreter state.
The theorems at the end of the file check the natural-language specification
of the interpreter against these definitions.
-/

namespace Picoc

/-- HEAP_SIZE: space for the heap and the stack (bytes). -/
def HEAP_SIZE : Nat := 2048

/-- GLOBAL_TABLE_SIZE: capacity of the global variable table. -/
def GLOBAL_TABLE_SIZE : Nat := 397

/-- FUNCTION_STORE_MAX: maximum number of user-defined functions and macros. -/
def FUNCTION_STORE_MAX : Nat := 200

/-- STACK_MAX: maximum function call stack depth. -/
def STACK_MAX : Nat := 10

/-- PARAMETER_MAX: maximum number of parameters to a function. -/
def PARAMETER_MAX : Nat := 10

/-- LOCAL_TABLE_SIZE: maximum number of local variables (slots per frame). -/
def LOCAL_TABLE_SIZE : Nat := 11

/-- LARGE_INT_POWER_OF_TEN: per the header, the largest power of ten which
fits in an `int` on this architecture. -/
def LARGE_INT_POWER_OF_TEN : Nat := 1000000000

/-- ARCH_ALIGN_WORDSIZE is `sizeof(int)`; the architecture assumed throughout
the header (see the comment on LARGE_INT_POWER_OF_TEN) has 32-bit `int`,
so this is 4 bytes. -/
def ARCH_ALIGN_WORDSIZE : Nat := 4

/-- Width in bits of the C `int` type assumed by the header (32-bit). -/
def INT_BITS : Nat := 32

/-- Largest value of the assumed 32-bit signed `int`. -/
def INT_MAX : Nat := 2 ^ 31 - 1

/-- Width in bits of the C `unsigned int` type assumed by the header. -/
def UINT_BITS : Nat := 32

/-- Width in bits of the `size_t` of the host, in which the arithmetic of the
MEM_ALIGN macro is carried out (`sizeof(int)` has type `size_t`);
a 64-bit host is assumed. -/
def SIZE_T_BITS : Nat := 64

/-- MEM_ALIGN(x) = `((x) + ARCH_ALIGN_WORDSIZE - 1) & ~(ARCH_ALIGN_WORDSIZE-1)`,
carried out in `size_t` arithmetic: the sum wraps modulo `2 ^ SIZE_T_BITS` and
the bitwise complement of `ARCH_ALIGN_WORDSIZE - 1` inside that width is
`(2 ^ SIZE_T_BITS - 1) - (ARCH_ALIGN_WORDSIZE - 1)`. -/
def MEM_ALIGN (x : Nat) : Nat :=
  ((x + ARCH_ALIGN_WORDSIZE - 1) % 2 ^ SIZE_T_BITS) &&&
    ((2 ^ SIZE_T_BITS - 1) - (ARCH_ALIGN_WORDSIZE - 1))

/-- enum LexToken: the lexical tokens, in the order of the header. -/
inductive LexToken where
  | TokenNone
  | TokenEOF
  | TokenIdentifier
  | TokenIntegerConstant
  | TokenFPConstant
  | TokenStringConstant
  | TokenCharacterConstant
  | TokenType
  | TokenOpenBracket
  | TokenCloseBracket
  | TokenAssign
  | TokenPlus
  | TokenMinus
  | TokenAsterisk
  | TokenSlash
  | TokenEquality
  | TokenLessThan
  | TokenGreaterThan
  | TokenLessEqual
  | TokenGreaterEqual
  | TokenSemicolon
  | TokenArrow
  | TokenAmpersand
  | TokenLeftBrace
  | TokenRightBrace
  | TokenLeftAngleBracket
  | TokenRightAngleBracket
  | TokenLogicalAnd
  | TokenLogicalOr
  | TokenArithmeticOr
  | TokenArithmeticExor
  | TokenUnaryExor
  | TokenUnaryNot
  | TokenComma
  | TokenDot
  | TokenAddAssign
  | TokenSubtractAssign
  | TokenIncrement
  | TokenDecrement
  | TokenIntType
  | TokenCharType
  | TokenFloatType
  | TokenDoubleType
  | TokenVoidType
  | TokenDo
  | TokenElse
  | TokenFor
  | TokenIf
  | TokenWhile
  | TokenBreak
  | TokenSwitch
  | TokenCase
  | TokenDefault
  | TokenReturn
  | TokenHashDefine
  | TokenHashInclude
  | TokenEndOfLine
  deriving DecidableEq, Fintype

/-- The surface lexemes named by the closed token set of the specification and by
its expression-operator table: punctuators, operators with their
compound-assign forms, keywords, preprocessor markers and the end-of-line
marker. -/
inductive Lexeme where
  | lparen
  | rparen
  | lbrace
  | rbrace
  | lbracket
  | rbracket
  | comma
  | semicolon
  | dot
  | arrow
  | assign
  | addAssign
  | subAssign
  | mulAssign
  | divAssign
  | andAssign
  | orAssign
  | xorAssign
  | plus
  | minus
  | star
  | slash
  | eq
  | neq
  | lt
  | gt
  | le
  | ge
  | logAnd
  | logOr
  | notOp
  | tilde
  | orOp
  | xorOp
  | andOp
  | inc
  | dec
  | kwDo
  | kwElse
  | kwFor
  | kwIf
  | kwWhile
  | kwBreak
  | kwSwitch
  | kwCase
  | kwDefault
  | kwReturn
  | hashDefine
  | hashInclude
  | endOfLine
  deriving DecidableEq, Fintype

/-- Modelled from the spec: the lexer itself (lex.c) is not under src/, so the
surface lexeme denoted by each LexToken discriminant is taken from the
token-set description of the spec and the discriminant names of the header. Tokens that
carry no fixed surface lexeme (EOF, identifiers, constants, the generic and
concrete type-keyword tokens, TokenNone) map to none. TokenLeftAngleBracket
and TokenRightAngleBracket are read as the array-index punctuators, since the
angle-bracket comparison characters already have the dedicated
TokenLessThan/TokenGreaterThan discriminants and the punctuator set of the spec
requires the square brackets. -/
def lexemeOf : LexToken → Option Lexeme
  | .TokenNone => none
  | .TokenEOF => none
  | .TokenIdentifier => none
  | .TokenIntegerConstant => none
  | .TokenFPConstant => none
  | .TokenStringConstant => none
  | .TokenCharacterConstant => none
  | .TokenType => none
  | .TokenOpenBracket => some .lparen
  | .TokenCloseBracket => some .rparen
  | .TokenAssign => some .assign
  | .TokenPlus => some .plus
  | .TokenMinus => some .minus
  | .TokenAsterisk => some .star
  | .TokenSlash => some .slash
  | .TokenEquality => some .eq
  | .TokenLessThan => some .lt
  | .TokenGreaterThan => some .gt
  | .TokenLessEqual => some .le
  | .TokenGreaterEqual => some .ge
  | .TokenSemicolon => some .semicolon
  | .TokenArrow => some .arrow
  | .TokenAmpersand => some .andOp
  | .TokenLeftBrace => some .lbrace
  | .TokenRightBrace => some .rbrace
  | .TokenLeftAngleBracket => some .lbracket
  | .TokenRightAngleBracket => some .rbracket
  | .TokenLogicalAnd => some .logAnd
  | .TokenLogicalOr => some .logOr
  | .TokenArithmeticOr => some .orOp
  | .TokenArithmeticExor => some .xorOp
  | .TokenUnaryExor => some .tilde
  | .TokenUnaryNot => some .notOp
  | .TokenComma => some .comma
  | .TokenDot => some .dot
  | .TokenAddAssign => some .addAssign
  | .TokenSubtractAssign => some .subAssign
  | .TokenIncrement => some .inc
  | .TokenDecrement => some .dec
  | .TokenIntType => none
  | .TokenCharType => none
  | .TokenFloatType => none
  | .TokenDoubleType => none
  | .TokenVoidType => none
  | .TokenDo => some .kwDo
  | .TokenElse => some .kwElse
  | .TokenFor => some .kwFor
  | .TokenIf => some .kwIf
  | .TokenWhile => some .kwWhile
  | .TokenBreak => some .kwBreak
  | .TokenSwitch => some .kwSwitch
  | .TokenCase => some .kwCase
  | .TokenDefault => some .kwDefault
  | .TokenReturn => some .kwReturn
  | .TokenHashDefine => some .hashDefine
  | .TokenHashInclude => some .hashInclude
  | .TokenEndOfLine => some .endOfLine

/-- The lexemes for which the claim under examination requires a distinct
discriminant: the ten punctuators, a compound-assign form for each arithmetic
and bitwise operator, the inequality operator, the unary logical-not and
bitwise-complement operators, the three binary bitwise operators,
increment and decrement, the comparison operators, the ten statement
keywords, the two preprocessor markers and the end-of-line marker. -/
def requiredLexemes : List Lexeme :=
  [.lparen, .rparen, .lbrace, .rbrace, .lbracket, .rbracket, .comma,
   .semicolon, .dot, .arrow,
   .addAssign, .subAssign, .mulAssign, .divAssign, .andAssign, .orAssign,
   .xorAssign,
   .neq,
   .notOp, .tilde,
   .orOp, .xorOp, .andOp,
   .inc, .dec,
   .eq, .lt, .gt, .le, .ge,
   .kwDo, .kwElse, .kwFor, .kwIf, .kwWhile, .kwBreak, .kwSwitch, .kwCase,
   .kwDefault, .kwReturn,
   .hashDefine, .hashInclude, .endOfLine]

/-- The sub-list of `requiredLexemes` that the token enumeration actually
covers: everything except the inequality operator and the compound-assign
forms of the multiplicative and bitwise operators. -/
def amendedLexemes : List Lexeme :=
  [.lparen, .rparen, .lbrace, .rbrace, .lbracket, .rbracket, .comma,
   .semicolon, .dot, .arrow,
   .addAssign, .subAssign,
   .notOp, .tilde,
   .orOp, .xorOp, .andOp,
   .inc, .dec,
   .eq, .lt, .gt, .le, .ge,
   .kwDo, .kwElse, .kwFor, .kwIf, .kwWhile, .kwBreak, .kwSwitch, .kwCase,
   .kwDefault, .kwReturn,
   .hashDefine, .hashInclude, .endOfLine]

/-- Str: a length-prefixed, non-owning slice of source text; the character
pointer is modelled as a machine address. -/
structure Str where
  Len : Int
  Str : Nat

/-- struct FuncDef: where a function is in the source file. -/
structure FuncDef where
  Source : Str
  FileName : Str
  StartLine : Int

/-- enum BaseType: the kinds of type, in the order of the header. -/
inductive BaseType where
  | TypeVoid
  | TypeInt
  | TypeFP
  | TypeChar
  | TypeString
  | TypeFunction
  | TypeMacro
  | TypePointer
  | TypeArray
  | TypeType
  deriving DecidableEq, Fintype

/-- struct ValueType: a base type paired with a nullable sub-type pointer
(used for pointer and array types). -/
inductive ValueType where
  | mk : BaseType → Option ValueType → ValueType

/-- The Base field of a ValueType. -/
def ValueType.Base : ValueType → BaseType
  | .mk b _ => b

/-- The SubType field of a ValueType (None models the NULL pointer). -/
def ValueType.SubType : ValueType → Option ValueType
  | .mk _ s => s

/-- ISVALUETYPE(t): `((t)->Base == TypeInt) || ((t)->Base == TypeFP) ||
((t)->Base == TypeString)`. -/
def ISVALUETYPE (t : ValueType) : Bool :=
  (t.Base == BaseType.TypeInt) || (t.Base == BaseType.TypeFP) ||
    (t.Base == BaseType.TypeString)

/-- Modelled from the spec: type descriptors are built only by the parser
(parse.c, which is not under src/); per the spec, `subtype` is non-null only
for `pointer` and `array`. A descriptor is well formed when every non-null
SubType link hangs off a pointer or array base, recursively. -/
def ValueType.WF : ValueType → Prop
  | .mk _ none => True
  | .mk b (some s) => (b = .TypePointer ∨ b = .TypeArray) ∧ ValueType.WF s

/-- struct ArrayValue: an unsigned element count and the data pointer,
modelled as a machine address. -/
structure ArrayValue where
  Size : Nat
  Data : Nat

/-- struct PointerValue, parameterized by the type of the value it can point
back into: a nullable Segment pointer and one word of payload, the union of
the unsigned Offset and the raw Memory pointer. -/
structure PointerValueF (V : Type) where
  Segment : Option V
  Data : Nat

/-- union AnyValue, parameterized by the type of interpreter values: the
payload of a value. The double payload is modelled as its 64-bit pattern and
the character payload as its unsigned byte value. -/
inductive AnyValueF (V : Type) where
  | Character : Nat → AnyValueF V
  | ShortInteger : Int → AnyValueF V
  | Integer : Int → AnyValueF V
  | FP : Nat → AnyValueF V
  | String : Str → AnyValueF V
  | Array : ArrayValue → AnyValueF V
  | Pointer : PointerValueF V → AnyValueF V

/-- struct Value: a type descriptor, a payload and the must-free flag;
the pointer member of the payload can refer back to another Value. -/
inductive Value where
  | mk : ValueType → AnyValueF Value → Bool → Value

/-- union AnyValue at the type of interpreter values. -/
abbrev AnyValue : Type := AnyValueF Value

/-- struct PointerValue at the type of interpreter values. -/
abbrev PointerValue : Type := PointerValueF Value

/-- The Typ field of a Value. -/
def Value.Typ : Value → ValueType
  | .mk t _ _ => t

/-- The Val field of a Value. -/
def Value.Val : Value → AnyValue
  | .mk _ v _ => v

/-- The MustFree flag of a Value. -/
def Value.MustFree : Value → Bool
  | .mk _ _ f => f

/-- What a pointer value denotes: either a raw host-memory address or an
index into a segment value. -/
inductive PtrMeaning where
  | raw : Nat → PtrMeaning
  | index : Value → Nat → PtrMeaning

/-- Modelled from the spec: pointer dereferencing lives in parse.c and
intrinsic.c, which are not under src/. Per the spec, a pointer whose Segment
is NULL is a raw host-memory pointer (used only by intrinsics) and any other
pointer is interpreted as the index Offset into Segment. -/
def interpPointer (p : PointerValue) : PtrMeaning :=
  match p.Segment with
  | none => PtrMeaning.raw p.Data
  | some s => PtrMeaning.index s p.Data

/-- Decrement of an `unsigned int` value as C computes it: subtraction wraps
modulo `2 ^ UINT_BITS`. -/
def uintDec (x : Nat) : Nat := (x + (2 ^ UINT_BITS - 1)) % 2 ^ UINT_BITS

/-- Decrementing the Offset field of a pointer, which the header declares
`unsigned int`: the arithmetic wraps modulo `2 ^ UINT_BITS`. -/
def PointerValueF.decOffset {V : Type} (p : PointerValueF V) : PointerValueF V :=
  { p with Data := uintDec p.Data }

/-- struct TableEntry: a key slice and a value pointer (None models NULL). -/
structure TableEntry where
  Key : Str
  Val : Option Value

/-- struct Table: a capacity and the backing entry array. -/
structure Table where
  Size : Int
  HashTable : List TableEntry

/-- struct LexState: lexer state; the cursor and end-of-buffer pointers are
modelled as machine addresses, End = none modelling the NULL sentinel of an
intrinsic call site. -/
structure LexState where
  Line : Int
  Pos : Nat
  End : Option Nat
  FileName : Str

/-- struct StackFrame: the saved lexer state, the local table, and exactly
LOCAL_TABLE_SIZE inline table entries of backing storage. -/
structure StackFrame where
  ReturnLex : LexState
  LocalTable : Table
  LocalHashTable : { l : List TableEntry // l.length = LOCAL_TABLE_SIZE }

/-- The module-level interpreter state declared at the bottom of the header:
one global table, one parameter array of exactly PARAMETER_MAX slots with its
single use count, one return-value slot, and the two interned type
descriptors. -/
structure Globals where
  GlobalTable : Table
  Parameter : { l : List Value // l.length = PARAMETER_MAX }
  ParameterUsed : Int
  ReturnValue : Value
  VoidType : ValueType
  FunctionType : ValueType

/-- Modelled from the spec: the call protocol (parse.c, intrinsic.c) is not
under src/. Per the spec, every call reads its arguments from the shared
Parameter array, of which the first ParameterUsed entries are live. -/
def Globals.args (g : Globals) : List Value :=
  g.Parameter.val.take g.ParameterUsed.toNat

/-- Modelled from the spec: every call, interpreted or intrinsic, computes
its result from the shared argument array and deposits it in the single
shared return-value slot, leaving the other module-level singletons alone. -/
def Globals.callFinish (g : Globals) (f : List Value → Value) : Globals :=
  { g with ReturnValue := f g.args }

/-- A sample interned type descriptor used by concrete witnesses. -/
def intType0 : ValueType := ValueType.mk BaseType.TypeInt none

/-- A sample value used by concrete witnesses. -/
def v0 : Value := Value.mk intType0 (AnyValueF.Integer 0) false

/-- A sample empty table used by concrete witnesses. -/
def table0 : Table := { Size := 0, HashTable := [] }

/-- A sample module-level state used by concrete witnesses. -/
def g0 : Globals :=
  { GlobalTable := table0
    Parameter := ⟨List.replicate PARAMETER_MAX v0, by simp⟩
    ParameterUsed := 0
    ReturnValue := v0
    VoidType := ValueType.mk BaseType.TypeVoid none
    FunctionType := ValueType.mk BaseType.TypeFunction none }

/-- C2: ISVALUETYPE(t) holds iff the base of t is TypeInt, TypeFP or TypeString,
and a descriptor whose base is any of the other seven bases is not a value
type. -/
theorem isvaluetype_iff_base (t : ValueType) :
    (ISVALUETYPE t = true ↔
      (t.Base = BaseType.TypeInt ∨ t.Base = BaseType.TypeFP ∨
        t.Base = BaseType.TypeString)) ∧
    ((t.Base = BaseType.TypeVoid ∨ t.Base = BaseType.TypeChar ∨
        t.Base = BaseType.TypeFunction ∨ t.Base = BaseType.TypeMacro ∨
        t.Base = BaseType.TypePointer ∨ t.Base = BaseType.TypeArray ∨
        t.Base = BaseType.TypeType) → ISVALUETYPE t = false) := by
  obtain ⟨b, s⟩ := t
  cases b <;> simp [ISVALUETYPE, ValueType.Base]

/-- Witness for C2: the char base, one of the seven non-value bases, is not a
value type. -/
theorem isvaluetype_iff_base_witness :
    ((ValueType.mk BaseType.TypeChar none).Base = BaseType.TypeVoid ∨
      (ValueType.mk BaseType.TypeChar none).Base = BaseType.TypeChar ∨
      (ValueType.mk BaseType.TypeChar none).Base = BaseType.TypeFunction ∨
      (ValueType.mk BaseType.TypeChar none).Base = BaseType.TypeMacro ∨
      (ValueType.mk BaseType.TypeChar none).Base = BaseType.TypePointer ∨
      (ValueType.mk BaseType.TypeChar none).Base = BaseType.TypeArray ∨
      (ValueType.mk BaseType.TypeChar none).Base = BaseType.TypeType) ∧
    ISVALUETYPE (ValueType.mk BaseType.TypeChar none) = false :=
  ⟨Or.inr (Or.inl rfl),
    (isvaluetype_iff_base (ValueType.mk BaseType.TypeChar none)).2
      (Or.inr (Or.inl rfl))⟩

/-- C4: LARGE_INT_POWER_OF_TEN is 10^9, which fits the assumed 32-bit int,
while 10^10 does not. -/
theorem large_int_power_of_ten_spec :
    LARGE_INT_POWER_OF_TEN = 10 ^ 9 ∧ LARGE_INT_POWER_OF_TEN ≤ INT_MAX ∧
      INT_MAX < 10 ^ 10 := by
  refine ⟨by norm_num [LARGE_INT_POWER_OF_TEN], ?_, ?_⟩ <;>
    norm_num [LARGE_INT_POWER_OF_TEN, INT_MAX]

/-- C5: BaseType has exactly the ten listed bases and no others; a descriptor
is determined by its base and single subtype field; and a well-formed
descriptor has a non-null subtype only when its base is pointer or array. -/
theorem basetype_ten_and_subtype (t : ValueType) :
    Fintype.card BaseType = 10 ∧
    (∀ b : BaseType, b = BaseType.TypeVoid ∨ b = BaseType.TypeInt ∨
      b = BaseType.TypeFP ∨ b = BaseType.TypeChar ∨ b = BaseType.TypeString ∨
      b = BaseType.TypeFunction ∨ b = BaseType.TypeMacro ∨
      b = BaseType.TypePointer ∨ b = BaseType.TypeArray ∨
      b = BaseType.TypeType) ∧
    (∀ a b : ValueType, a.Base = b.Base → a.SubType = b.SubType → a = b) ∧
    (t.WF → t.SubType ≠ none →
      t.Base = BaseType.TypePointer ∨ t.Base = BaseType.TypeArray) := by
  refine ⟨by decide, by decide, ?_, ?_⟩
  · rintro ⟨b1, s1⟩ ⟨b2, s2⟩ h1 h2
    simp only [ValueType.Base] at h1
    simp only [ValueType.SubType] at h2
    subst h1; subst h2; rfl
  · obtain ⟨b, s⟩ := t
    cases s with
    | none => intro _ hne; exact absurd rfl hne
    | some s1 => intro hwf _; exact hwf.1

/-- Witness for C5: a pointer-to-int descriptor is well formed, has a
non-null subtype, and its base is indeed pointer or array. -/
theorem basetype_ten_and_subtype_witness :
    (ValueType.mk BaseType.TypePointer (some intType0)).WF ∧
    (ValueType.mk BaseType.TypePointer (some intType0)).SubType ≠ none ∧
    ((ValueType.mk BaseType.TypePointer (some intType0)).Base =
        BaseType.TypePointer ∨
      (ValueType.mk BaseType.TypePointer (some intType0)).Base =
        BaseType.TypeArray) := by
  have hwf : (ValueType.mk BaseType.TypePointer (some intType0)).WF :=
    ⟨Or.inl rfl, trivial⟩
  have hne : (ValueType.mk BaseType.TypePointer (some intType0)).SubType ≠
      none := by simp [ValueType.SubType]
  exact ⟨hwf, hne,
    (basetype_ten_and_subtype
      (ValueType.mk BaseType.TypePointer (some intType0))).2.2.2 hwf hne⟩

/-- C6: every pointer value is a segment together with one payload word; a
NULL segment means the payload is a raw host-memory pointer, and any non-null
segment means the payload is the index Offset into that segment. -/
theorem pointer_interpretation (p : PointerValue) :
    (∃ seg d, p = PointerValueF.mk seg d) ∧
    (p.Segment = none → interpPointer p = PtrMeaning.raw p.Data) ∧
    (∀ s, p.Segment = some s → interpPointer p = PtrMeaning.index s p.Data) := by
  obtain ⟨seg, d⟩ := p
  refine ⟨⟨seg, d, rfl⟩, ?_, ?_⟩
  · intro h
    cases seg with
    | none => rfl
    | some v => exact Option.noConfusion h
  · intro s hs
    cases seg with
    | none => exact Option.noConfusion hs
    | some v =>
      obtain rfl := Option.some.inj hs
      rfl

/-- Witness for C6: a NULL-segment pointer denotes raw memory address 5, and
a pointer into the value v0 denotes index 2 of that segment. -/
theorem pointer_interpretation_witness :
    interpPointer (⟨none, 5⟩ : PointerValue) = PtrMeaning.raw 5 ∧
    interpPointer (⟨some v0, 2⟩ : PointerValue) = PtrMeaning.index v0 2 :=
  ⟨(pointer_interpretation (⟨none, 5⟩ : PointerValue)).2.1 rfl,
    (pointer_interpretation (⟨some v0, 2⟩ : PointerValue)).2.2 v0 rfl⟩

/-- C7: the default sizes are 2048 heap bytes, 397 global slots and 11 local
slots, and every stack frame embeds exactly LOCAL_TABLE_SIZE entries of
backing storage inline. -/
theorem default_sizes :
    HEAP_SIZE = 2048 ∧ GLOBAL_TABLE_SIZE = 397 ∧ LOCAL_TABLE_SIZE = 11 ∧
      ∀ f : StackFrame, f.LocalHashTable.val.length = LOCAL_TABLE_SIZE :=
  ⟨rfl, rfl, rfl, fun f => f.LocalHashTable.property⟩

/-- C8: the module-level state consists of exactly the declared singletons
(two states agreeing on them are equal), and every call reads its arguments
from the shared parameter array and deposits its result in the shared
return-value slot, leaving the other singletons in place. -/
theorem singleton_call_state :
    (∀ g h : Globals, g.GlobalTable = h.GlobalTable →
      g.Parameter = h.Parameter → g.ParameterUsed = h.ParameterUsed →
      g.ReturnValue = h.ReturnValue → g.VoidType = h.VoidType →
      g.FunctionType = h.FunctionType → g = h) ∧
    (∀ (g : Globals) (f : List Value → Value),
      (g.callFinish f).ReturnValue = f g.args ∧
      (g.callFinish f).GlobalTable = g.GlobalTable ∧
      (g.callFinish f).Parameter = g.Parameter ∧
      (g.callFinish f).ParameterUsed = g.ParameterUsed) := by
  constructor
  · rintro ⟨a1, a2, a3, a4, a5, a6⟩ ⟨b1, b2, b3, b4, b5, b6⟩ h1 h2 h3 h4 h5 h6
    dsimp only at h1 h2 h3 h4 h5 h6
    subst h1; subst h2; subst h3; subst h4; subst h5; subst h6; rfl
  · intro g f
    exact ⟨rfl, rfl, rfl, rfl⟩

/-- Witness for C8: the extensionality direction applied to the concrete
state g0. -/
theorem singleton_call_state_witness : g0 = g0 :=
  singleton_call_state.1 g0 g0 rfl rfl rfl rfl rfl rfl

/-- C9: the fixed capacity limits are 200 stored functions, 10 stack frames
and 10 parameters; the shared parameter array has exactly PARAMETER_MAX
slots, so no call can present more than 10 arguments. -/
theorem capacity_limits :
    FUNCTION_STORE_MAX = 200 ∧ STACK_MAX = 10 ∧ PARAMETER_MAX = 10 ∧
    (∀ g : Globals, g.Parameter.val.length = PARAMETER_MAX) ∧
    (∀ g : Globals, g.args.length ≤ PARAMETER_MAX) := by
  refine ⟨rfl, rfl, rfl, fun g => g.Parameter.property, fun g => ?_⟩
  have hlen := g.Parameter.property
  simp only [Globals.args, List.length_take]
  rw [hlen]
  exact min_le_right _ _

/-- C10: array sizes and pointer offsets are unsigned (never negative as
machine integers), and offset arithmetic wraps modulo 2^32: decrementing an
offset of 0 yields the maximum representable offset, while decrementing any
in-range positive offset subtracts one. -/
theorem unsigned_offset_wrap :
    (∀ a : ArrayValue, 0 ≤ (a.Size : Int)) ∧
    (∀ p : PointerValue, 0 ≤ (p.Data : Int)) ∧
    (∀ p : PointerValue,
      p.Data < 2 ^ UINT_BITS → (p.decOffset).Data < 2 ^ UINT_BITS) ∧
    (∀ p : PointerValue,
      p.Data = 0 → (p.decOffset).Data = 2 ^ UINT_BITS - 1) ∧
    (∀ p : PointerValue, 0 < p.Data → p.Data < 2 ^ UINT_BITS →
      (p.decOffset).Data = p.Data - 1) := by
  have h32 : (2 : Nat) ^ UINT_BITS = 4294967296 := by norm_num [UINT_BITS]
  refine ⟨fun a => Int.natCast_nonneg _, fun p => Int.natCast_nonneg _,
    ?_, ?_, ?_⟩
  · intro p _
    show uintDec p.Data < 2 ^ UINT_BITS
    simp only [uintDec, h32]
    omega
  · intro p hd
    show uintDec p.Data = 2 ^ UINT_BITS - 1
    rw [hd]
    simp only [uintDec, h32]
  · intro p hpos hlt
    show uintDec p.Data = p.Data - 1
    rw [h32] at hlt
    simp only [uintDec, h32]
    omega

/-- Witness for C10: decrementing offset 0 wraps to 2^32 - 1, and
decrementing offset 5 gives 4. -/
theorem unsigned_offset_wrap_witness :
    ((⟨none, 0⟩ : PointerValue).Data = 0 ∧
      ((⟨none, 0⟩ : PointerValue).decOffset).Data = 2 ^ UINT_BITS - 1) ∧
    (0 < (⟨none, 5⟩ : PointerValue).Data ∧
      (⟨none, 5⟩ : PointerValue).Data < 2 ^ UINT_BITS ∧
      ((⟨none, 5⟩ : PointerValue).decOffset).Data =
        (⟨none, 5⟩ : PointerValue).Data - 1) :=
  ⟨⟨rfl, unsigned_offset_wrap.2.2.2.1 (⟨none, 0⟩ : PointerValue) rfl⟩,
    ⟨by norm_num, by norm_num [UINT_BITS],
      unsigned_offset_wrap.2.2.2.2 (⟨none, 5⟩ : PointerValue) (by norm_num)
        (by norm_num [UINT_BITS])⟩⟩

/-- C1 as stated is false: the token enumeration has no discriminant for the
inequality operator (nor for the multiplicative or bitwise compound-assign
forms), so not every element of the token set of the spec has one. -/
theorem lexer_token_cover_counterexample :
    ¬ (∀ l : Lexeme, l ∈ requiredLexemes →
        ∃ t : LexToken, lexemeOf t = some l) := by
  intro h
  have h2 : ∃ t : LexToken, lexemeOf t = some Lexeme.neq :=
    h Lexeme.neq (by decide)
  have h3 : ¬ ∃ t : LexToken, lexemeOf t = some Lexeme.neq := by decide
  exact h3 h2

/-- C1 amended: the enumeration has a distinct discriminant for each
punctuator, for the compound-assign forms of + and - (the only ones), for
the unary operators ! and ~, the bitwise operators | ^ &, increment and
decrement, the comparison operators other than != (which has no token of its
own), the ten keywords, the two preprocessor markers and the internal
end-of-line token; it has no discriminant for != nor for the compound-assign
forms of the multiplicative or bitwise operators. Distinctness holds because
lexemeOf is a function: two lexemes cannot share one discriminant. -/
theorem lexer_token_cover_amended :
    (∀ l : Lexeme, l ∈ amendedLexemes →
      ∃ t : LexToken, lexemeOf t = some l) ∧
    (∀ t : LexToken,
      lexemeOf t ≠ some Lexeme.neq ∧ lexemeOf t ≠ some Lexeme.mulAssign ∧
      lexemeOf t ≠ some Lexeme.divAssign ∧ lexemeOf t ≠ some Lexeme.andAssign ∧
      lexemeOf t ≠ some Lexeme.orAssign ∧ lexemeOf t ≠ some Lexeme.xorAssign) := by
  constructor
  · decide
  · decide

/-- Witness for the amended C1: the array-index punctuator is in the covered
set and has a discriminant. -/
theorem lexer_token_cover_amended_witness :
    Lexeme.lbracket ∈ amendedLexemes ∧
    ∃ t : LexToken, lexemeOf t = some Lexeme.lbracket :=
  ⟨by decide, lexer_token_cover_amended.1 Lexeme.lbracket (by decide)⟩

/-- Rounding a size a up to a multiple of 2^j inside a 2^w-bit word: masking
off the low j bits of an in-range a keeps exactly the complete multiples of
2^j. -/
theorem and_two_pow_sub (w j a : Nat) (hj : j ≤ w) (ha : a < 2 ^ w) :
    a &&& (2 ^ w - 2 ^ j) = 2 ^ j * (a / 2 ^ j) := by
  have hsplit : (2 : Nat) ^ (w - j) * 2 ^ j = 2 ^ w := by
    rw [← pow_add]
    congr 1
    omega
  have hmask : (2 : Nat) ^ w - 2 ^ j = (2 ^ (w - j) - 1) <<< j := by
    rw [Nat.shiftLeft_eq, Nat.sub_mul, one_mul, hsplit]
  have hrhs : 2 ^ j * (a / 2 ^ j) = (a >>> j) <<< j := by
    rw [Nat.shiftRight_eq_div_pow, Nat.shiftLeft_eq, Nat.mul_comm]
  rw [hmask, hrhs]
  apply Nat.eq_of_testBit_eq
  intro i
  rw [Nat.testBit_and, Nat.testBit_shiftLeft, Nat.testBit_shiftLeft,
    Nat.testBit_shiftRight, Nat.testBit_two_pow_sub_one]
  by_cases hji : j ≤ i
  · have hadd : j + (i - j) = i := by omega
    rw [hadd]
    by_cases hiw : i < w
    · have hij : i - j < w - j := by omega
      simp [ge_iff_le, hji, hij]
    · have hfalse : a.testBit i = false :=
        Nat.testBit_lt_two_pow
          (lt_of_lt_of_le ha (Nat.pow_le_pow_right (by norm_num) (by omega)))
      simp [hfalse]
  · simp [ge_iff_le, hji]

/-- MEM_ALIGN written arithmetically: for sizes whose sum with
ARCH_ALIGN_WORDSIZE - 1 does not overflow, the macro computes
4 * ((n + 3) / 4). -/
theorem MEM_ALIGN_eq (n : Nat) (h : n + 3 < 2 ^ 64) :
    MEM_ALIGN n = 4 * ((n + 3) / 4) := by
  show ((n + 4 - 1) % 2 ^ 64) &&& ((2 ^ 64 - 1) - (4 - 1)) = 4 * ((n + 3) / 4)
  have h1 : n + 4 - 1 = n + 3 := by omega
  have h2 : (2 : Nat) ^ 64 - 1 - (4 - 1) = 2 ^ 64 - 2 ^ 2 := by norm_num
  rw [h1, h2, Nat.mod_eq_of_lt h, and_two_pow_sub 64 2 (n + 3) (by norm_num) h]
  norm_num

/-- C3: for any size n whose sum with ARCH_ALIGN_WORDSIZE - 1 fits the
machine integer, MEM_ALIGN(n) is the least word-aligned value that is at
least n, and MEM_ALIGN is idempotent there. -/
theorem mem_align_least_multiple (n : Nat)
    (h : n + (ARCH_ALIGN_WORDSIZE - 1) < 2 ^ SIZE_T_BITS) :
    n ≤ MEM_ALIGN n ∧ ARCH_ALIGN_WORDSIZE ∣ MEM_ALIGN n ∧
    (∀ m, ARCH_ALIGN_WORDSIZE ∣ m → n ≤ m → MEM_ALIGN n ≤ m) ∧
    MEM_ALIGN (MEM_ALIGN n) = MEM_ALIGN n := by
  have hA : ARCH_ALIGN_WORDSIZE = 4 := rfl
  have hS : SIZE_T_BITS = 64 := rfl
  rw [hA, hS] at h
  have h3 : n + 3 < 2 ^ 64 := by omega
  have heq : MEM_ALIGN n = 4 * ((n + 3) / 4) := MEM_ALIGN_eq n h3
  refine ⟨by rw [heq]; omega, ?_, ?_, ?_⟩
  · rw [heq, hA]
    exact Dvd.intro _ rfl
  · intro m hm hnm
    rw [hA] at hm
    obtain ⟨k, hk⟩ := hm
    subst hk
    rw [heq]
    omega
  · have hM3 : 4 * ((n + 3) / 4) + 3 < 2 ^ 64 := by omega
    rw [heq, MEM_ALIGN_eq _ hM3]
    omega

/-- Witness for C3: at n = 5 the hypothesis holds and the alignment bounds
follow; moreover MEM_ALIGN 5 evaluates to 8. -/
theorem mem_align_least_multiple_witness :
    (5 + (ARCH_ALIGN_WORDSIZE - 1) < 2 ^ SIZE_T_BITS ∧
      5 ≤ MEM_ALIGN 5 ∧ ARCH_ALIGN_WORDSIZE ∣ MEM_ALIGN 5) ∧
    MEM_ALIGN 5 = 8 :=
  ⟨⟨by norm_num [ARCH_ALIGN_WORDSIZE, SIZE_T_BITS],
    (mem_align_least_multiple 5
      (by norm_num [ARCH_ALIGN_WORDSIZE, SIZE_T_BITS])).1,
    (mem_align_least_multiple 5
      (by norm_num [ARCH_ALIGN_WORDSIZE, SIZE_T_BITS])).2.1⟩,
    by rw [MEM_ALIGN_eq 5 (by norm_num)]⟩

end Picoc
